import Mathlib

/-!
# Verification of the LimitlessLED wifi-bridge v6 command-set encoder

A shallow embedding of `limitlessled/group/commands/v6.py`: the frame
builder `_build_command`, the unit conversions (`convert_brightness`,
`convert_temperature`, `convert_color` together with the hue computation
of `colorsys.rgb_to_hsv`), and the four device-variant opcode tables
(`CommandSetBridgeLightV6`, `CommandSetWhiteV6`, `CommandSetRgbwV6`,
`CommandSetRgbwwV6`).

Python machine-level conventions used by the source are made explicit:
integers are unbounded (`ℤ`), `x & 0xFF` on an integer is `x % 256`
(Euclidean remainder, as in Python), floats handed to the conversion
functions are modelled as rationals (`ℚ`), `math.ceil`/`math.floor` are
`Int.ceil`/`Int.floor`, and Python's `x % 1.0` on a float is `Int.fract`.
-/

namespace LimitlessV6

/-- Modelled from the spec: the `Command` value produced by the builder
(class `Command` of `limitlessled.group.commands`, not part of the sources
at hand) carries the ordered byte sequence of the frame and the target
zone (group number), immutable once built. -/
structure Command where
  bytes : List ℤ
  group_number : ℤ
  deriving DecidableEq, Repr

/-- The three transport-session values `_build_command` reads from the
bridge: `self._bridge.wb1`, `self._bridge.wb2`, `self._bridge.sn`. -/
structure Bridge where
  wb1 : ℤ
  wb2 : ℤ
  sn : ℤ
  deriving DecidableEq, Repr

/-- `CommandSetV6.PASSWORD_BYTE1 = 0x00`. -/
def PASSWORD_BYTE1 : ℤ := 0x00

/-- `CommandSetV6.PASSWORD_BYTE2 = 0x00`. -/
def PASSWORD_BYTE2 : ℤ := 0x00

/-- `CommandSetV6.MAX_COLOR = 0xFF`. -/
def MAX_COLOR : ℤ := 0xFF

/-- `CommandSetV6.MAX_BRIGHTNESS = 0x64`. -/
def MAX_BRIGHTNESS : ℤ := 0x64

/-- `CommandSetV6.MAX_TEMPERATURE = 0x64`. -/
def MAX_TEMPERATURE : ℤ := 0x64

/-- `CommandSetV6.convert_brightness`: `math.ceil(brightness * MAX_BRIGHTNESS)`
with the 0.0–1.0 input modelled as a rational. -/
def convert_brightness (brightness : ℚ) : ℤ :=
  ⌈brightness * (MAX_BRIGHTNESS : ℚ)⌉

/-- `CommandSetV6.convert_temperature`: `math.ceil(temperature * MAX_TEMPERATURE)`. -/
def convert_temperature (temperature : ℚ) : ℤ :=
  ⌈temperature * (MAX_TEMPERATURE : ℚ)⌉

/-- `colorsys.rgb_to_hsv` from the Python standard library (the source
imports it), over rationals.  Python's float `% 1.0` is `Int.fract`. -/
def rgb_to_hsv (r g b : ℚ) : ℚ × ℚ × ℚ :=
  let maxc := max r (max g b)
  let minc := min r (min g b)
  let v := maxc
  if minc = maxc then (0, 0, v)
  else
    let s := (maxc - minc) / maxc
    let rc := (maxc - r) / (maxc - minc)
    let gc := (maxc - g) / (maxc - minc)
    let bc := (maxc - b) / (maxc - minc)
    let h :=
      if r = maxc then bc - gc
      else if g = maxc then 2 + rc - bc
      else 4 + gc - rc
    (Int.fract (h / 6), s, v)

/-- `CommandSetV6.convert_color`: `math.floor(rgb_to_hsv(*color)[0] * MAX_COLOR)`. -/
def convert_color (color : ℚ × ℚ × ℚ) : ℤ :=
  let hue := (rgb_to_hsv color.1 color.2.1 color.2.2).1
  ⌊hue * (MAX_COLOR : ℚ)⌋

/-- `CommandSetV6._build_command`: assembles
`preamble + cmd + zone_selector + [checksum]` and wraps it in a `Command`
with the group number.  Python's `& 0xFF` is `% 256`. -/
def build_command (remote_style cmd_1 cmd_2 : ℤ) (bridge : Bridge)
    (group_number : ℤ) : Command :=
  let preamble : List ℤ :=
    [0x80, 0x00, 0x00, 0x00, 0x11, bridge.wb1, bridge.wb2, 0x00, bridge.sn, 0x00]
  let cmd : List ℤ :=
    [0x31, PASSWORD_BYTE1, PASSWORD_BYTE2, remote_style, cmd_1, cmd_2, cmd_2, cmd_2, cmd_2]
  let zone_selector : List ℤ := [group_number, 0x00]
  let checksum : ℤ := (cmd ++ zone_selector).sum % 256
  Command.mk (preamble ++ cmd ++ zone_selector ++ [checksum]) group_number

/-- The four device variants: `CommandSetBridgeLightV6`, `CommandSetWhiteV6`,
`CommandSetRgbwV6`, `CommandSetRgbwwV6`. -/
inductive Variant where
  | bridgeLight
  | white
  | rgbw
  | rgbww
  deriving DecidableEq, Repr

/-- The `REMOTE_STYLE` class constant of each variant, passed by each
subclass constructor into `CommandSetV6.__init__` and placed at frame
offset 13 by `_build_command`. -/
def REMOTE_STYLE : Variant → ℤ
  | .bridgeLight => 0x00
  | .white => 0x08
  | .rgbw => 0x08
  | .rgbww => 0x07

/-- A Python number handed to `CommandSetWhiteV6.temperature`, which puts
it into the `cmd` list unconverted: a Python `int` survives the later
`& 0xFF`, while a `float` (the docstring's 0.0–1.0 domain, modelled as an
exact rational) makes `sum(cmd + zone_selector)` a float, and `float & int`
raises `TypeError` — no frame is produced. -/
inductive PyNum where
  | int (n : ℤ)
  | float (q : ℚ)

/-- The logical operations appearing across the four variants, with their
parameters.  The White variant's `temperature` hands its argument straight
to `_build_command` as `cmd_2`, so the parameter is carried as the Python
number (`int` or `float`) the caller passed. -/
inductive Op where
  | on
  | off
  | white
  | nightLight
  | color (c : ℚ × ℚ × ℚ)
  | brightness (b : ℚ)
  | temperature (t : PyNum)

/-- The per-variant opcode tables: each method of the four subclasses is
one line (`some (cmd_1, cmd_2)`); a method a subclass does not define is
`none` (calling it on the Python object finds no such attribute and no
frame is produced).  `CommandSetWhiteV6.temperature` with a float argument
is also `none`: the pair (0x05, t) does reach `_build_command`, but its
checksum line `sum(cmd + zone_selector) & 0xFF` raises `TypeError` on the
float before any `Command` is assembled, so no frame is produced — the
embedding folds that failure into the lookup. -/
def cmdPair : Variant → Op → Option (ℤ × ℤ)
  | .bridgeLight, .on => some (0x03, 0x03)
  | .bridgeLight, .off => some (0x03, 0x04)
  | .bridgeLight, .white => some (0x03, 0x05)
  | .bridgeLight, .color c => some (0x01, convert_color c)
  | .bridgeLight, .brightness b => some (0x02, convert_brightness b)
  | .white, .on => some (0x04, 0x01)
  | .white, .off => some (0x04, 0x02)
  | .white, .nightLight => some (0x04, 0x05)
  | .white, .brightness b => some (0x03, convert_brightness b)
  | .white, .temperature (.int t) => some (0x05, t)
  | .white, .temperature (.float _) => none
  | .rgbw, .on => some (0x04, 0x01)
  | .rgbw, .off => some (0x04, 0x02)
  | .rgbw, .nightLight => some (0x04, 0x05)
  | .rgbw, .white => some (0x05, 0x64)
  | .rgbw, .color c => some (0x01, convert_color c)
  | .rgbw, .brightness b => some (0x03, convert_brightness b)
  | .rgbww, .on => some (0x03, 0x01)
  | .rgbww, .off => some (0x03, 0x02)
  | .rgbww, .nightLight => some (0x03, 0x06)
  | .rgbww, .white => some (0x03, 0x05)
  | .rgbww, .color c => some (0x01, convert_color c)
  | .rgbww, .brightness b => some (0x02, convert_brightness b)
  | _, _ => none

/-- Invoking operation `op` on variant `v`: look the method up in the
variant's table and, when it exists, build the frame through the shared
`_build_command` with the variant's remote-style byte. -/
def build (v : Variant) (op : Op) (bridge : Bridge) (zone : ℤ) : Option Command :=
  (cmdPair v op).map fun p => build_command (REMOTE_STYLE v) p.1 p.2 bridge zone

end LimitlessV6

namespace LimitlessV6

/-- Every frame built by `_build_command` has exactly 22 bytes. -/
theorem build_command_length (rs c1 c2 : ℤ) (bridge : Bridge) (z : ℤ) :
    (build_command rs c1 c2 bridge z).bytes.length = 22 := by
  simp [build_command]

/-- Unfolding `build` when the variant defines the operation. -/
theorem build_eq_of_cmdPair (v : Variant) (op : Op) (bridge : Bridge)
    (zone c1 c2 : ℤ) (h : cmdPair v op = some (c1, c2)) :
    build v op bridge zone =
      some (build_command (REMOTE_STYLE v) c1 c2 bridge zone) := by
  simp [build, h]

/-- C1: for every variant and every operation the variant defines, the
built frame is exactly the 22-byte sequence
`[0x80, 0, 0, 0, 0x11, wb1, wb2, 0, sn, 0, 0x31, pw1, pw2, remoteStyle,
cmd1, cmd2, cmd2, cmd2, cmd2, zone, 0, checksum]`, and the returned
`Command` carries the target zone. -/
theorem frame_layout (v : Variant) (op : Op) (bridge : Bridge)
    (zone c1 c2 : ℤ) (h : cmdPair v op = some (c1, c2)) :
    ∃ cmd : Command, build v op bridge zone = some cmd ∧
      cmd.bytes =
        [0x80, 0x00, 0x00, 0x00, 0x11, bridge.wb1, bridge.wb2, 0x00, bridge.sn, 0x00,
         0x31, 0x00, 0x00, REMOTE_STYLE v, c1, c2, c2, c2, c2, zone, 0x00,
         (0x31 + 0x00 + 0x00 + REMOTE_STYLE v + c1 + c2 + c2 + c2 + c2 + zone + 0x00) % 256] ∧
      cmd.bytes.length = 22 ∧
      cmd.group_number = zone := by
  refine ⟨build_command (REMOTE_STYLE v) c1 c2 bridge zone,
    build_eq_of_cmdPair v op bridge zone c1 c2 h, ?_, build_command_length _ _ _ _ _, rfl⟩
  simp [build_command, PASSWORD_BYTE1, PASSWORD_BYTE2]
  ring_nf

/-- Witness for C1 at the White variant's `off`, bridge (1, 2, 3), zone 7. -/
theorem frame_layout_witness :
    ∃ cmd : Command, build .white .off ⟨1, 2, 3⟩ 7 = some cmd ∧
      cmd.bytes =
        [0x80, 0x00, 0x00, 0x00, 0x11, (1 : ℤ), 2, 0x00, 3, 0x00,
         0x31, 0x00, 0x00, REMOTE_STYLE .white, 0x04, 0x02, 0x02, 0x02, 0x02, 7, 0x00,
         (0x31 + 0x00 + 0x00 + REMOTE_STYLE .white + 0x04 + 0x02 + 0x02 + 0x02 + 0x02 + 7 + 0x00) % 256] ∧
      cmd.bytes.length = 22 ∧
      cmd.group_number = 7 :=
  frame_layout .white .off ⟨1, 2, 3⟩ 7 0x04 0x02 rfl

/-- C2: for every variant and defined operation, the frame is 22 bytes and
its checksum byte at offset 21 is the sum of bytes 10 through 20 inclusive
taken modulo 256. -/
theorem checksum_correct (v : Variant) (op : Op) (bridge : Bridge) (zone : ℤ)
    (cmd : Command) (h : build v op bridge zone = some cmd) :
    cmd.bytes.length = 22 ∧
    cmd.bytes.getD 21 0 = ((cmd.bytes.drop 10).take 11).sum % 256 := by
  cases hcp : cmdPair v op with
  | none => simp [build, hcp] at h
  | some p =>
    rw [build_eq_of_cmdPair v op bridge zone p.1 p.2 (by rw [hcp])] at h
    obtain rfl : build_command (REMOTE_STYLE v) p.1 p.2 bridge zone = cmd :=
      Option.some.inj h
    refine ⟨build_command_length _ _ _ _ _, ?_⟩
    simp [build_command, PASSWORD_BYTE1, PASSWORD_BYTE2, List.getD]

/-- Witness for C2 at the RGBWW variant's `night_light`, bridge (9, 8, 7), zone 2. -/
theorem checksum_correct_witness :
    (build_command (REMOTE_STYLE .rgbww) 0x03 0x06 ⟨9, 8, 7⟩ 2).bytes.length = 22 ∧
    (build_command (REMOTE_STYLE .rgbww) 0x03 0x06 ⟨9, 8, 7⟩ 2).bytes.getD 21 0 =
      (((build_command (REMOTE_STYLE .rgbww) 0x03 0x06 ⟨9, 8, 7⟩ 2).bytes.drop 10).take 11).sum % 256 :=
  checksum_correct .rgbww .nightLight ⟨9, 8, 7⟩ 2 _ rfl

/-- C3: each variant's remote-style byte (BridgeLight 0x00, White 0x08,
RGBW 0x08, RGBWW 0x07) and the full opcode table: every defined operation
of every variant yields exactly the (cmd1, cmd2) pair of the spec table. -/
theorem opcode_table :
    REMOTE_STYLE .bridgeLight = 0x00 ∧ REMOTE_STYLE .white = 0x08 ∧
    REMOTE_STYLE .rgbw = 0x08 ∧ REMOTE_STYLE .rgbww = 0x07 ∧
    cmdPair .bridgeLight .on = some (0x03, 0x03) ∧
    cmdPair .bridgeLight .off = some (0x03, 0x04) ∧
    cmdPair .bridgeLight .white = some (0x03, 0x05) ∧
    (∀ c, cmdPair .bridgeLight (.color c) = some (0x01, convert_color c)) ∧
    (∀ b, cmdPair .bridgeLight (.brightness b) = some (0x02, convert_brightness b)) ∧
    cmdPair .white .on = some (0x04, 0x01) ∧
    cmdPair .white .off = some (0x04, 0x02) ∧
    cmdPair .white .nightLight = some (0x04, 0x05) ∧
    (∀ b, cmdPair .white (.brightness b) = some (0x03, convert_brightness b)) ∧
    cmdPair .rgbw .on = some (0x04, 0x01) ∧
    cmdPair .rgbw .off = some (0x04, 0x02) ∧
    cmdPair .rgbw .nightLight = some (0x04, 0x05) ∧
    cmdPair .rgbw .white = some (0x05, 0x64) ∧
    (∀ c, cmdPair .rgbw (.color c) = some (0x01, convert_color c)) ∧
    (∀ b, cmdPair .rgbw (.brightness b) = some (0x03, convert_brightness b)) ∧
    cmdPair .rgbww .on = some (0x03, 0x01) ∧
    cmdPair .rgbww .off = some (0x03, 0x02) ∧
    cmdPair .rgbww .white = some (0x03, 0x05) ∧
    cmdPair .rgbww .nightLight = some (0x03, 0x06) ∧
    (∀ c, cmdPair .rgbww (.color c) = some (0x01, convert_color c)) ∧
    (∀ b, cmdPair .rgbww (.brightness b) = some (0x02, convert_brightness b)) :=
  ⟨rfl, rfl, rfl, rfl, rfl, rfl, rfl, fun _ => rfl, fun _ => rfl, rfl, rfl, rfl,
   fun _ => rfl, rfl, rfl, rfl, rfl, fun _ => rfl, fun _ => rfl, rfl, rfl, rfl, rfl,
   fun _ => rfl, fun _ => rfl⟩

/-- C4: `convert_brightness` is the ceiling map `b ↦ ⌈b * 100⌉`; on inputs
in [0, 1] the result lies in [0, 100]; the four spec values hold
(0 ↦ 0, 1 ↦ 100, 0.01 ↦ 1, 0.001 ↦ 1); and `convert_temperature` obeys
the same ceiling rule. -/
theorem convert_brightness_ceiling (b : ℚ) (h0 : 0 ≤ b) (h1 : b ≤ 1) :
    convert_brightness b = ⌈b * 100⌉ ∧
    0 ≤ convert_brightness b ∧ convert_brightness b ≤ 100 ∧
    convert_brightness 0 = 0 ∧ convert_brightness 1 = 100 ∧
    convert_brightness (1 / 100) = 1 ∧ convert_brightness (1 / 1000) = 1 ∧
    (∀ t : ℚ, convert_temperature t = ⌈t * 100⌉) := by
  have hmax : (MAX_BRIGHTNESS : ℚ) = 100 := by norm_num [MAX_BRIGHTNESS]
  refine ⟨by rw [convert_brightness, hmax], ?_, ?_, ?_, ?_, ?_, ?_, ?_⟩
  · exact Int.ceil_nonneg (mul_nonneg h0 (by norm_num [MAX_BRIGHTNESS]))
  · rw [convert_brightness, hmax]
    exact Int.ceil_le.mpr (by push_cast; nlinarith)
  · norm_num [convert_brightness, MAX_BRIGHTNESS]
  · norm_num [convert_brightness, MAX_BRIGHTNESS]
  · norm_num [convert_brightness, MAX_BRIGHTNESS, Int.ceil_eq_iff]
  · norm_num [convert_brightness, MAX_BRIGHTNESS, Int.ceil_eq_iff]
  · intro t
    rw [convert_temperature]
    norm_num [MAX_TEMPERATURE]

/-- Witness for C4 at b = 1/2. -/
theorem convert_brightness_ceiling_witness :
    (0 : ℚ) ≤ 1 / 2 ∧ (1 : ℚ) / 2 ≤ 1 ∧
    (convert_brightness (1 / 2) = ⌈(1 : ℚ) / 2 * 100⌉ ∧
      0 ≤ convert_brightness (1 / 2) ∧ convert_brightness (1 / 2) ≤ 100 ∧
      convert_brightness 0 = 0 ∧ convert_brightness 1 = 100 ∧
      convert_brightness (1 / 100) = 1 ∧ convert_brightness (1 / 1000) = 1 ∧
      (∀ t : ℚ, convert_temperature t = ⌈t * 100⌉)) :=
  ⟨by norm_num, by norm_num,
    convert_brightness_ceiling (1 / 2) (by norm_num) (by norm_num)⟩

/-- The hue returned by `rgb_to_hsv` always lies in [0, 1). -/
theorem hue_mem_Ico (r g b : ℚ) :
    0 ≤ (rgb_to_hsv r g b).1 ∧ (rgb_to_hsv r g b).1 < 1 := by
  rw [rgb_to_hsv]
  split
  · norm_num
  · exact ⟨Int.fract_nonneg _, Int.fract_lt_one _⟩

/-- C5: `convert_color` is `⌊hue * 255⌋` of the HSV hue, lands in
[0, 254], depends only on the hue (equal hues give equal bytes), and pure
red, green, blue map to 0, 85, 170. -/
theorem convert_color_hue_only (c c' : ℚ × ℚ × ℚ)
    (hhue : (rgb_to_hsv c.1 c.2.1 c.2.2).1 = (rgb_to_hsv c'.1 c'.2.1 c'.2.2).1) :
    convert_color c = ⌊(rgb_to_hsv c.1 c.2.1 c.2.2).1 * 255⌋ ∧
    convert_color c = convert_color c' ∧
    (∀ d : ℚ × ℚ × ℚ, 0 ≤ convert_color d ∧ convert_color d ≤ 254) ∧
    convert_color (255, 0, 0) = 0 ∧
    convert_color (0, 255, 0) = 85 ∧
    convert_color (0, 0, 255) = 170 := by
  refine ⟨by rw [convert_color]; norm_num [MAX_COLOR], ?_, ?_, ?_, ?_, ?_⟩
  · rw [convert_color, convert_color, hhue]
  · intro d
    obtain ⟨hle, hlt⟩ := hue_mem_Ico d.1 d.2.1 d.2.2
    constructor
    · exact Int.floor_nonneg.mpr (mul_nonneg hle (by norm_num [MAX_COLOR]))
    · have : (rgb_to_hsv d.1 d.2.1 d.2.2).1 * (MAX_COLOR : ℚ) < 255 := by
        norm_num [MAX_COLOR]; nlinarith
      have h255 : convert_color d < 255 := by
        rw [convert_color]
        exact Int.floor_lt.mpr (by push_cast; linarith)
      omega
  · norm_num [convert_color, rgb_to_hsv, Int.fract, MAX_COLOR]
  · norm_num [convert_color, rgb_to_hsv, Int.fract, MAX_COLOR]
  · norm_num [convert_color, rgb_to_hsv, Int.fract, MAX_COLOR]

/-- Witness for C5: (255,0,0) and (128,64,64) share hue 0 with different
saturation and value, so they get the same byte. -/
theorem convert_color_hue_only_witness :
    (rgb_to_hsv (255 : ℚ) 0 0).1 = (rgb_to_hsv (128 : ℚ) 64 64).1 ∧
    (convert_color (255, 0, 0) = ⌊(rgb_to_hsv (255 : ℚ) 0 0).1 * 255⌋ ∧
      convert_color (255, 0, 0) = convert_color (128, 64, 64) ∧
      (∀ d : ℚ × ℚ × ℚ, 0 ≤ convert_color d ∧ convert_color d ≤ 254) ∧
      convert_color (255, 0, 0) = 0 ∧
      convert_color (0, 255, 0) = 85 ∧
      convert_color (0, 0, 255) = 170) :=
  ⟨by norm_num [rgb_to_hsv, Int.fract],
    convert_color_hue_only (255, 0, 0) (128, 64, 64)
      (by norm_num [rgb_to_hsv, Int.fract])⟩

/-- C6: on its documented input domain the White variant's `temperature`
builds no frame at all: for every float input — the docstring's 0.0–1.0
fractions, 1.0 included — the unconverted pass-through makes
`sum(cmd + zone_selector) & 0xFF` a float & int `TypeError`.  Only a
Python-int argument yields the pass-through frame, with cmd1 = 0x05 and
bytes 15–18 holding `t` verbatim, `convert_temperature` never applied. -/
theorem white_temperature_typeerror :
    build .white (.temperature (.float (1 / 2))) ⟨0x11, 0x22, 0x05⟩ 3 = none ∧
    (∀ q : ℚ, ∀ bridge : Bridge, ∀ zone : ℤ,
      build .white (.temperature (.float q)) bridge zone = none) ∧
    (∀ t : ℤ, ∀ bridge : Bridge, ∀ zone : ℤ,
      build .white (.temperature (.int t)) bridge zone =
        some (build_command 0x08 0x05 t bridge zone) ∧
      ∃ cmd : Command, build .white (.temperature (.int t)) bridge zone = some cmd ∧
        cmd.bytes.getD 14 0 = 0x05 ∧
        cmd.bytes.getD 15 0 = t ∧ cmd.bytes.getD 16 0 = t ∧
        cmd.bytes.getD 17 0 = t ∧ cmd.bytes.getD 18 0 = t) := by
  refine ⟨rfl, fun q bridge zone => rfl, fun t bridge zone => ?_⟩
  refine ⟨rfl, build_command 0x08 0x05 t bridge zone, rfl, ?_, ?_, ?_, ?_, ?_⟩ <;>
    simp [build_command, List.getD]

/-- C7 as stated is false: at the spec's own example input the checksum
byte is not 0x34.  BridgeLight `on` with session bytes (0x11, 0x22),
sequence 0x05, zone 3 yields a final byte of 0x43, not 0x34. -/
theorem bridgelight_on_checksum_not_0x34 :
    build .bridgeLight .on ⟨0x11, 0x22, 0x05⟩ 3 ≠
      some (Command.mk
        [0x80, 0x00, 0x00, 0x00, 0x11, 0x11, 0x22, 0x00, 0x05, 0x00,
         0x31, 0x00, 0x00, 0x00, 0x03, 0x03, 0x03, 0x03, 0x03, 0x03, 0x00, 0x34] 3) := by
  decide

/-- C7 amended: the spec's example frame is correct except for the final
arithmetic: the checksum is (0x31+0+0+0+3+3+3+3+3+3+0) & 0xFF = 0x43. -/
theorem bridgelight_on_example :
    build .bridgeLight .on ⟨0x11, 0x22, 0x05⟩ 3 =
      some (Command.mk
        [0x80, 0x00, 0x00, 0x00, 0x11, 0x11, 0x22, 0x00, 0x05, 0x00,
         0x31, 0x00, 0x00, 0x00, 0x03, 0x03, 0x03, 0x03, 0x03, 0x03, 0x00, 0x43] 3) ∧
    (0x31 + 0 + 0 + 0 + 3 + 3 + 3 + 3 + 3 + 3 + 0) % 256 = (0x43 : ℤ) := by
  constructor
  · decide
  · decide

/-- C8: an operation a variant does not define produces no frame: every
undefined (variant, operation) pair of the table yields `none`. -/
theorem unsupported_operation (bridge : Bridge) (zone : ℤ) :
    build .bridgeLight .nightLight bridge zone = none ∧
    (∀ t, build .bridgeLight (.temperature t) bridge zone = none) ∧
    build .white .white bridge zone = none ∧
    (∀ c, build .white (.color c) bridge zone = none) ∧
    (∀ t, build .rgbw (.temperature t) bridge zone = none) ∧
    (∀ t, build .rgbww (.temperature t) bridge zone = none) :=
  ⟨rfl, fun _ => rfl, rfl, fun _ => rfl, fun _ => rfl, fun _ => rfl⟩

/-- C9: frame construction is deterministic — two builds with identical
variant, operation, session values and zone yield byte-identical frames
with the same group number. -/
theorem build_deterministic (v : Variant) (op : Op) (bridge : Bridge)
    (zone : ℤ) (cmd cmd' : Command)
    (h : build v op bridge zone = some cmd)
    (h' : build v op bridge zone = some cmd') :
    cmd.bytes = cmd'.bytes ∧ cmd.group_number = cmd'.group_number := by
  obtain rfl : cmd = cmd' := Option.some.inj (h.symm.trans h')
  exact ⟨rfl, rfl⟩

/-- Witness for C9 at the RGBW variant's `on`, bridge (4, 5, 6), zone 1. -/
theorem build_deterministic_witness :
    (build_command (REMOTE_STYLE .rgbw) 0x04 0x01 ⟨4, 5, 6⟩ 1).bytes =
      (build_command (REMOTE_STYLE .rgbw) 0x04 0x01 ⟨4, 5, 6⟩ 1).bytes ∧
    (build_command (REMOTE_STYLE .rgbw) 0x04 0x01 ⟨4, 5, 6⟩ 1).group_number =
      (build_command (REMOTE_STYLE .rgbw) 0x04 0x01 ⟨4, 5, 6⟩ 1).group_number :=
  build_deterministic .rgbw .on ⟨4, 5, 6⟩ 1 _ _ rfl rfl

/-- C10: the checksum ignores the transport-session bytes — two builds
differing only in (wb1, wb2, sn) agree at every frame offset other than
5, 6 and 8; in particular bytes 10 through 21, the checksum included,
are identical. -/
theorem session_bytes_confined (v : Variant) (op : Op)
    (bridge bridge' : Bridge) (zone : ℤ) (cmd cmd' : Command)
    (h : build v op bridge zone = some cmd)
    (h' : build v op bridge' zone = some cmd')
    (i : ℕ) (h5 : i ≠ 5) (h6 : i ≠ 6) (h8 : i ≠ 8) :
    cmd.bytes.getD i 0 = cmd'.bytes.getD i 0 := by
  cases hcp : cmdPair v op with
  | none => rw [build, hcp] at h; exact absurd h (by simp)
  | some p =>
    rw [build_eq_of_cmdPair v op bridge zone p.1 p.2 (by rw [hcp])] at h
    rw [build_eq_of_cmdPair v op bridge' zone p.1 p.2 (by rw [hcp])] at h'
    obtain rfl : build_command (REMOTE_STYLE v) p.1 p.2 bridge zone = cmd :=
      Option.some.inj h
    obtain rfl : build_command (REMOTE_STYLE v) p.1 p.2 bridge' zone = cmd' :=
      Option.some.inj h'
    by_cases hi : i < 22
    · interval_cases i <;> simp_all [build_command, List.getD]
    · rw [List.getD_eq_default _ _ (by rw [build_command_length]; omega),
        List.getD_eq_default _ _ (by rw [build_command_length]; omega)]

/-- Witness for C10: BridgeLight `off`, zone 2, sessions (1, 2, 3) and
(7, 8, 9), compared at the checksum offset 21. -/
theorem session_bytes_confined_witness :
    (build_command (REMOTE_STYLE .bridgeLight) 0x03 0x04 ⟨1, 2, 3⟩ 2).bytes.getD 21 0 =
      (build_command (REMOTE_STYLE .bridgeLight) 0x03 0x04 ⟨7, 8, 9⟩ 2).bytes.getD 21 0 :=
  session_bytes_confined .bridgeLight .off ⟨1, 2, 3⟩ ⟨7, 8, 9⟩ 2 _ _ rfl rfl 21
    (by decide) (by decide) (by decide)

end LimitlessV6
